import Mathlib

/-!
Shallow embedding of the retrieval layer of the scraper repository:
`src/scraper.py` (class `Scraper`, the static HTTP fetcher) and
`src/dynamic_scraper.py` (class `DynamicScraper`, the browser-driven fetcher).

Python values that may be of the wrong type at a setter are embedded as
`PyValue`; Python exceptions that can cross a call boundary are embedded as
`PyError` in an `Except` result.  Network and browser behaviour, which the
repository delegates to the `requests`/`urllib3` and `selenium` libraries,
is embedded as explicit behaviour parameters (`NetOutcome`, `DynBehavior`)
passed to the `scrape` functions.
-/

namespace MyScraper

/-- A Python value as it may arrive at a validating setter: `None`, a string,
or a value of some other type (represented by an integer). -/
inductive PyValue
  | vNone
  | vStr (s : String)
  | vInt (n : Int)
deriving DecidableEq, Repr

/-- Python truthiness for the embedded values: `None` is falsy, a string is
truthy iff non-empty, an integer is truthy iff nonzero. -/
def PyValue.truthy : PyValue → Bool
  | .vNone => false
  | .vStr s => !s.data.isEmpty
  | .vInt n => n != 0

/-- Python exceptions that can escape a call in the two modules:
`ValueError` (raised by the validating setters and the guards in `scrape`),
`WebDriverException` (selenium driver errors), and any other exception type. -/
inductive PyError
  | valueError (msg : String)
  | webDriverError (msg : String)
  | otherError (msg : String)
deriving DecidableEq, Repr

/-- Python `s.startswith(pre)`: `pre` is a prefix of the character sequence of
`s`. -/
def startswith (s pre : String) : Bool :=
  pre.data.isPrefixOf s.data

/-- The `url` setter, identical in `Scraper` (src/scraper.py lines 170 to 185)
and `DynamicScraper` (src/dynamic_scraper.py lines 124 to 132):
rejects falsy values, non-strings, and strings not starting with "http". -/
def setUrl (url : PyValue) : Except PyError String :=
  if !url.truthy then .error (.valueError "URL cannot be None")
  else
    match url with
    | .vStr s =>
      if !startswith s "http" then .error (.valueError "URL must start with http or https")
      else .ok s
    | _ => .error (.valueError "URL must be a string")

/-- The `proxy` setter (src/scraper.py lines 115 to 125): `None` clears the
proxy, a string is stored, any other type raises `ValueError`. -/
def setProxy (proxy : PyValue) : Except PyError (Option String) :=
  match proxy with
  | .vNone => .ok none
  | .vStr s => .ok (some s)
  | _ => .error (.valueError "Proxy must be a string")

/-- The fixed default User-Agent header value (src/scraper.py line 140). -/
def defaultUserAgent : String :=
  "Mozilla/5.0 (Windows NT 10.0; Win64; x64) AppleWebKit/537.36 (KHTML, like Gecko) Chrome/58.0.3029.110 Safari/537.3"

/-- The `headers` setter of `Scraper` (src/scraper.py lines 131 to 142):
`None` is replaced by a default mapping holding the fixed User-Agent; a
caller-supplied mapping is stored as given. -/
def setHeaders (headers : Option (List (String × String))) : List (String × String) :=
  match headers with
  | none => [("User-Agent", defaultUserAgent)]
  | some h => h

/-- The retry policy object handed to the HTTP adapter
(src/scraper.py lines 65 to 70). -/
structure Retry where
  total : Nat
  backoff_factor : Nat
  status_forcelist : List Nat
  raise_on_status : Bool
deriving DecidableEq, Repr

/-- The configured session: the mounted retry policy and the optional proxy
mapping applied to http and https traffic. -/
structure Session where
  retry : Retry
  proxies : Option (String × String)
deriving DecidableEq, Repr

/-- `Scraper._create_session` (src/scraper.py lines 58 to 75): a session with
retry total equal to the configured retries, backoff factor 1, status
forcelist [500, 502, 503, 504], raise_on_status false, and, when a proxy is
configured, that proxy for both http and https. -/
def create_session (retries : Nat) (proxy : Option String) : Session :=
  { retry :=
      { total := retries
        backoff_factor := 1
        status_forcelist := [500, 502, 503, 504]
        raise_on_status := false }
    proxies := proxy.map (fun p => (p, p)) }

/-- The state of a `Scraper` instance (src/scraper.py lines 33 to 56).
`data` holds the markup of the parsed soup, `none` when unset; `session` is
`Option` so that the guard at src/scraper.py line 86 is representable. -/
structure Scraper where
  url : Option String
  headers : List (String × String)
  timeout : Int
  retries : Nat
  proxy : Option String
  data : Option String
  session : Option Session
deriving DecidableEq, Repr

/-- Default `timeout` argument of `Scraper.__init__` (src/scraper.py line 36). -/
def defaultTimeout : Int := 15

/-- Default `retries` argument of `Scraper.__init__` (src/scraper.py line 37). -/
def defaultRetries : Nat := 5

/-- `Scraper.__init__` (src/scraper.py lines 33 to 56): runs the url, headers
and proxy setters, sets `data` to `None`, and immediately creates the session
via `_create_session`. -/
def Scraper.init (url : PyValue) (timeout : Int) (retries : Nat)
    (proxy : PyValue) (headers : Option (List (String × String))) :
    Except PyError Scraper :=
  match setUrl url with
  | .error e => .error e
  | .ok u =>
    match setProxy proxy with
    | .error e => .error e
    | .ok p =>
      .ok { url := some u
            headers := setHeaders headers
            timeout := timeout
            retries := retries
            proxy := p
            data := none
            session := some (create_session retries p) }

/-- Modelled from the spec: the bounded retry loop lives in the HTTP client
library (`urllib3`), not in this repository; the repository only pins its
configuration in `_create_session`.  The spec describes it as a bounded retry
policy with a budget of attempts, retrying only on the configured status
codes.  `server i` is the status the server answers to the i-th request.
Arguments: the status forcelist, the server, the remaining attempt budget and
the index of the next request.  Returns the finally delivered status and the
total number of requests issued. -/
def runRetryLoop (forcelist : List Nat) (server : Nat → Nat) : Nat → Nat → Nat × Nat
  | 0, i => (server i, i + 1)
  | 1, i => (server i, i + 1)
  | b + 2, i =>
    if server i ∈ forcelist then runRetryLoop forcelist server (b + 1) (i + 1)
    else (server i, i + 1)

/-- Resolving one `session.get` against a server: run the retry loop with the
budget and forcelist mounted on the session. -/
def Session.resolve (sess : Session) (server : Nat → Nat) : Nat × Nat :=
  runRetryLoop sess.retry.status_forcelist server sess.retry.total 0

/-- `response.raise_for_status()` raises `HTTPError` exactly on 4xx and 5xx
status codes. -/
def raise_for_status (status : Nat) : Bool :=
  400 ≤ status && status < 600

/-- The possible outcomes of the network interaction inside the `try` block of
`Scraper.scrape`: the server replies (with a status history and a body), a
connection error, a read timeout, or another request exception. -/
inductive NetOutcome
  | reply (server : Nat → Nat) (body : String)
  | connectionError
  | readTimeout
  | requestError

/-- `Scraper.scrape` (src/scraper.py lines 77 to 106).  Guards raise
`ValueError` when session or url is unset; any previously stored data is
cleared; then the request runs and `ConnectionError`, `ReadTimeout` and
`RequestException` (including the `HTTPError` from `raise_for_status`) are
caught and only logged, so those paths return normally with `data` unset. -/
def Scraper.scrape (st : Scraper) (net : NetOutcome) : Except PyError Scraper :=
  match st.session, st.url with
  | none, _ => .error (.valueError "Session is not set")
  | some _, none => .error (.valueError "URL is not set")
  | some sess, some _ =>
    let st1 := if st.data.isSome then { st with data := none } else st
    match net with
    | .reply server body =>
      let status := (sess.resolve server).1
      if raise_for_status status then .ok st1
      else .ok { st1 with data := some body }
    | .connectionError => .ok st1
    | .readTimeout => .ok st1
    | .requestError => .ok st1

/-- `Scraper.cleaned_data` (src/scraper.py lines 157 to 164): the prettified
markup of the stored soup when data is set, otherwise the empty string.
`prettify` is the opaque BeautifulSoup formatting function, passed as a
parameter. -/
def Scraper.cleaned_data (prettify : String → String) (st : Scraper) : String :=
  match st.data with
  | some s => prettify s
  | none => ""

/-- The state of a `DynamicScraper` instance
(src/dynamic_scraper.py lines 34 to 56).  The `_data` attribute behind the
`data` property is `dataRaw` here; `none` models `None`. -/
structure DynamicScraper where
  url : String
  timeout : Nat
  headers : Option (List (String × String))
  rate_limit : Nat
  dataRaw : Option String
deriving DecidableEq, Repr

/-- `DynamicScraper.__init__` (src/dynamic_scraper.py lines 34 to 56): runs
the url setter and leaves `_data` unset.  Selenium options are opaque
configuration and are not modelled. -/
def DynamicScraper.init (url : PyValue) (timeout : Nat)
    (headers : Option (List (String × String))) (rate_limit : Nat) :
    Except PyError DynamicScraper :=
  match setUrl url with
  | .error e => .error e
  | .ok u =>
    .ok { url := u
          timeout := timeout
          headers := headers
          rate_limit := rate_limit
          dataRaw := none }

/-- The `data` property getter of `DynamicScraper`
(src/dynamic_scraper.py lines 142 to 144): the stored string when truthy,
otherwise the empty string. -/
def DynamicScraper.data (st : DynamicScraper) : String :=
  match st.dataRaw with
  | some s => if !s.data.isEmpty then s else ""
  | none => ""

/-- Observable driver lifecycle events of one `DynamicScraper.scrape` call. -/
inductive DriverEvent
  | created
  | quit
deriving DecidableEq, Repr

/-- How the page load behaves once the driver is up: after `bodyReadyAt`
seconds the document body element is present in the DOM (`none` means never),
and `pageSource` is the rendered markup. -/
structure PageLoad where
  bodyReadyAt : Option Nat
  pageSource : String
deriving DecidableEq, Repr

/-- The behaviour of the browser environment during one
`DynamicScraper.scrape` call: driver creation fails with
`WebDriverException`; the driver is created but a `WebDriverException` occurs
during navigation or waiting; an exception of some other type occurs inside
the `try` block; or the page load proceeds as described by `PageLoad`. -/
inductive DynBehavior
  | launchFail
  | driverError
  | unexpected
  | load (page : PageLoad)
deriving DecidableEq, Repr

/-- `WebDriverWait(driver, timeout).until(presence of body)` succeeds iff the
body element appears within the timeout. -/
def bodyReadyWithin (timeout : Nat) (bodyReadyAt : Option Nat) : Bool :=
  match bodyReadyAt with
  | some t => t ≤ timeout
  | none => false

/-- Time spent blocked in the readiness wait: until the body appears, but
never longer than the timeout. -/
def waitTime (timeout : Nat) (bodyReadyAt : Option Nat) : Nat :=
  match bodyReadyAt with
  | some t => min t timeout
  | none => timeout

/-- `DynamicScraper.scrape` (src/dynamic_scraper.py lines 88 to 115), paired
with the driver lifecycle trace of the call.
The url guard raises `ValueError`.  `_create_driver` (lines 74 to 86) catches
a `WebDriverException` during driver creation only to log and re-raise it, and
it is called before the `try` block, so a launch failure escapes the call and
no driver event happens.  Once the driver exists, `TimeoutException` and
`WebDriverException` inside the `try` block are caught and logged, an
exception of any other type propagates, and the `finally` block quits the
driver on every one of those paths.  Stored data is never cleared: only the
success path assigns `self.data`. -/
def DynamicScraper.scrape (st : DynamicScraper) (beh : DynBehavior) :
    Except PyError DynamicScraper × List DriverEvent :=
  if !st.url.data.isEmpty then
    match beh with
    | .launchFail => (.error (.webDriverError "Error creating WebDriver"), [])
    | .driverError => (.ok st, [.created, .quit])
    | .unexpected => (.error (.otherError "unhandled exception type"), [.created, .quit])
    | .load page =>
      if bodyReadyWithin st.timeout page.bodyReadyAt then
        (.ok { st with dataRaw := some page.pageSource }, [.created, .quit])
      else
        (.ok st, [.created, .quit])
  else (.error (.valueError "URL is not set"), [])

/-- Spec-side definition, for comparison with `setUrl` only: the spec calls a
URL well formed when it declares an http or https scheme. -/
def specHasHttpScheme (s : String) : Bool :=
  startswith s "http://" || startswith s "https://"

/-- A concretely constructed static fetcher:
the state produced by `Scraper.init` on a well-formed URL and defaults. -/
def sampleScraper : Scraper :=
  { url := some "http://example.com"
    headers := setHeaders none
    timeout := defaultTimeout
    retries := defaultRetries
    proxy := none
    data := none
    session := some (create_session defaultRetries none) }

/-- A concretely constructed dynamic fetcher. -/
def sampleDyn : DynamicScraper :=
  { url := "http://example.com"
    timeout := 15
    headers := none
    rate_limit := 1
    dataRaw := none }

/-! ## Helper lemmas -/

/-- When the first status received is not in the forcelist, the retry loop
stops after a single request, whatever the remaining budget. -/
theorem runRetryLoop_stops (forcelist : List Nat) (server : Nat → Nat) (b i : Nat)
    (h : server i ∉ forcelist) : runRetryLoop forcelist server b i = (server i, i + 1) := by
  match b with
  | 0 => rfl
  | 1 => rfl
  | b + 2 => simp [runRetryLoop, h]

/-! ## Claims -/

/-- Claim C1, counterexample.  The claim states that every error other than
InvalidInput raised during a fetch is caught inside the call, and that a
browser launch failure in particular is converted to a recovered failure and
never propagates.  On the code, `_create_driver` re-raises the
`WebDriverException` of a failed launch and is called before the `try` block
of `scrape`, so the exception escapes the call (modelled as an `Except.error`
result) and the call performs no recovery at all (empty driver trace). -/
theorem C1_counterexample :
    (DynamicScraper.scrape sampleDyn .launchFail).1 =
      .error (.webDriverError "Error creating WebDriver") ∧
    (DynamicScraper.scrape sampleDyn .launchFail).2 = [] :=
  ⟨rfl, rfl⟩

/-- Claim C1, amended.  In `Scraper.scrape`, every modelled network outcome
(server reply of any status, connection error, read timeout, other request
exception) is caught and the call returns normally.  In
`DynamicScraper.scrape`, a timeout or driver error arising after the driver
was created is caught and the call returns normally; but a browser launch
failure escapes the call as an uncaught `WebDriverException` (as does an
exception of a type other than `TimeoutException`/`WebDriverException`),
rather than being converted to a recovered failure. -/
theorem C1_theorem :
    (∀ (st : Scraper) (net : NetOutcome),
      st.session.isSome = true → st.url.isSome = true →
      (Scraper.scrape st net).isOk = true) ∧
    (∀ (st : DynamicScraper) (beh : DynBehavior),
      st.url.data.isEmpty = false → beh ≠ .launchFail → beh ≠ .unexpected →
      ((DynamicScraper.scrape st beh).1).isOk = true) ∧
    (∀ st : DynamicScraper, st.url.data.isEmpty = false →
      (DynamicScraper.scrape st .launchFail).1 =
        .error (.webDriverError "Error creating WebDriver")) := by
  refine ⟨?_, ?_, ?_⟩
  · intro st net h1 h2
    obtain ⟨sess, hs⟩ := Option.isSome_iff_exists.mp h1
    obtain ⟨u, hu⟩ := Option.isSome_iff_exists.mp h2
    cases net <;> simp [Scraper.scrape, hs, hu] <;> split <;> rfl
  · intro st beh h hb1 hb2
    cases beh with
    | launchFail => exact absurd rfl hb1
    | unexpected => exact absurd rfl hb2
    | driverError => simp [DynamicScraper.scrape, h]; rfl
    | load page => simp [DynamicScraper.scrape, h]; split <;> rfl
  · intro st h
    simp [DynamicScraper.scrape, h]

/-- Claim C1, witness for the amended theorem. -/
theorem C1_witness :
    (Scraper.scrape sampleScraper .connectionError).isOk = true ∧
    ((DynamicScraper.scrape sampleDyn .driverError).1).isOk = true ∧
    (DynamicScraper.scrape sampleDyn .launchFail).1 =
      .error (.webDriverError "Error creating WebDriver") :=
  ⟨C1_theorem.1 sampleScraper .connectionError rfl rfl,
   C1_theorem.2.1 sampleDyn .driverError rfl (by decide) (by decide),
   C1_theorem.2.2 sampleDyn rfl⟩

/-- Claim C2, counterexample.  The claim states that every value other than a
well-formed http or https URL is rejected at construction.  The string
"httpevil" declares no http or https scheme, yet the url setter accepts it,
because the code only checks `startswith("http")`. -/
theorem C2_counterexample :
    setUrl (.vStr "httpevil") = .ok "httpevil" ∧
    specHasHttpScheme "httpevil" = false :=
  ⟨rfl, by decide⟩

/-- Claim C2, amended.  Construction succeeds exactly for the non-empty
strings starting with the four characters "http": every URL declaring an
http or https scheme is accepted, but so are scheme-less strings such as
"httpevil"; every other value (falsy, non-string, or not starting with
"http") is rejected with a `ValueError` before any network activity. -/
theorem C2_theorem :
    (∀ s : String, s.data.isEmpty = false → startswith s "http" = true →
      setUrl (.vStr s) = .ok s) ∧
    (∀ s : String, specHasHttpScheme s = true → setUrl (.vStr s) = .ok s) ∧
    (∀ (v : PyValue) (u : String), setUrl v = .ok u →
      v = .vStr u ∧ u.data.isEmpty = false ∧ startswith u "http" = true) ∧
    (∀ (v : PyValue) (e : PyError), setUrl v = .error e →
      ∃ msg, e = .valueError msg) := by
  refine ⟨?_, ?_, ?_, ?_⟩
  · intro s hne hpre
    simp [setUrl, PyValue.truthy, hne, hpre]
  · intro s h
    have hpre : startswith s "http" = true := by
      unfold specHasHttpScheme at h
      rcases Bool.or_eq_true _ _ |>.mp h with h7 | h8
      · unfold startswith at h7 ⊢
        have t1 : "http".data <+: "http://".data := by decide
        have t2 : "http://".data <+: s.data := List.isPrefixOf_iff_prefix.mp h7
        exact List.isPrefixOf_iff_prefix.mpr (t1.trans t2)
      · unfold startswith at h8 ⊢
        have t1 : "http".data <+: "https://".data := by decide
        have t2 : "https://".data <+: s.data := List.isPrefixOf_iff_prefix.mp h8
        exact List.isPrefixOf_iff_prefix.mpr (t1.trans t2)
    have hne : s.data.isEmpty = false := by
      have := List.isPrefixOf_iff_prefix.mp hpre
      rcases this with ⟨t, ht⟩
      cases hd : s.data with
      | nil => rw [hd] at ht; simp at ht
      | cons a l => simp
    simp [setUrl, PyValue.truthy, hne, hpre]
  · intro v u h
    cases v with
    | vNone => simp [setUrl, PyValue.truthy] at h
    | vStr s =>
      by_cases he : s.data.isEmpty
      · simp [setUrl, PyValue.truthy, he] at h
      · by_cases hp : startswith s "http"
        · simp [setUrl, PyValue.truthy, he, hp] at h
          subst h
          exact ⟨rfl, by simpa using he, hp⟩
        · simp [setUrl, PyValue.truthy, he, hp] at h
    | vInt n =>
      by_cases hn : n = 0
      · simp [setUrl, PyValue.truthy, hn] at h
      · simp [setUrl, PyValue.truthy, hn] at h
  · intro v e h
    cases v with
    | vNone => simp [setUrl, PyValue.truthy] at h; exact ⟨_, h.symm⟩
    | vStr s =>
      by_cases he : s.data.isEmpty
      · simp [setUrl, PyValue.truthy, he] at h; exact ⟨_, h.symm⟩
      · by_cases hp : startswith s "http"
        · simp [setUrl, PyValue.truthy, he, hp] at h
        · simp [setUrl, PyValue.truthy, he, hp] at h; exact ⟨_, h.symm⟩
    | vInt n =>
      by_cases hn : n = 0
      · simp [setUrl, PyValue.truthy, hn] at h; exact ⟨_, h.symm⟩
      · simp [setUrl, PyValue.truthy, hn] at h; exact ⟨_, h.symm⟩

/-- Claim C2, witness for the amended theorem. -/
theorem C2_witness :
    setUrl (.vStr "httpother") = .ok "httpother" ∧
    setUrl (.vStr "https://example.com") = .ok "https://example.com" ∧
    ((.vStr "http://a" : PyValue) = .vStr "http://a" ∧
      ("http://a" : String).data.isEmpty = false ∧
      startswith "http://a" "http" = true) ∧
    (∃ msg, (PyError.valueError "URL cannot be None") = .valueError msg) :=
  ⟨C2_theorem.1 "httpother" (by decide) (by decide),
   C2_theorem.2.1 "https://example.com" (by decide),
   C2_theorem.2.2.1 (.vStr "http://a") "http://a" rfl,
   C2_theorem.2.2.2 .vNone (.valueError "URL cannot be None") rfl⟩

/-- Claim C3: the session is mounted with a retry policy of default budget 5,
backoff factor 1, retrying only on status codes 500, 502, 503 and 504;
consequently a server answering 503 fewer times than the budget and then 200
makes the fetch succeed (the body is stored), while a 404 answer is delivered
after exactly one request, without retry, and the fetch records no data.  The
retry loop itself runs inside the HTTP client library and is modelled from
the spec; the configuration is the one pinned in `_create_session`. -/
theorem C3_theorem :
    (create_session defaultRetries none).retry =
      { total := 5, backoff_factor := 1, status_forcelist := [500, 502, 503, 504],
        raise_on_status := false } ∧
    (∀ k : Nat, k < 5 → ∀ body : String,
      Scraper.scrape sampleScraper (.reply (fun i => if i < k then 503 else 200) body) =
        .ok { sampleScraper with data := some body }) ∧
    (∀ (server : Nat → Nat) (body : String), server 0 = 404 →
      Session.resolve (create_session defaultRetries none) server = (404, 1) ∧
      Scraper.scrape sampleScraper (.reply server body) = .ok sampleScraper) := by
  refine ⟨rfl, ?_, ?_⟩
  · intro k hk body
    interval_cases k <;> rfl
  · intro server body h
    have hre : Session.resolve (create_session defaultRetries none) server = (404, 1) := by
      have : server 0 ∉ [500, 502, 503, 504] := by simp [h]
      rw [Session.resolve, create_session, runRetryLoop_stops _ _ _ _ this, h]
    refine ⟨hre, ?_⟩
    show (if raise_for_status (Session.resolve (create_session defaultRetries none) server).1 = true
          then Except.ok sampleScraper
          else Except.ok { sampleScraper with data := some body }) = Except.ok sampleScraper
    rw [hre]
    rfl

/-- Claim C3, witness. -/
theorem C3_witness :
    Scraper.scrape sampleScraper (.reply (fun i => if i < 3 then 503 else 200) "BODY") =
      .ok { sampleScraper with data := some "BODY" } ∧
    Session.resolve (create_session defaultRetries none) (fun _ => 404) = (404, 1) :=
  ⟨C3_theorem.2.1 3 (by decide) "BODY",
   (C3_theorem.2.2 (fun _ => 404) "BODY" rfl).1⟩

/-- Claim C4: whenever `DynamicScraper.scrape` creates the driver, the driver
is also quit, on every exit path of the call: success, recovered timeout or
driver error, and unexpected exception alike. -/
theorem C4_theorem :
    ∀ (st : DynamicScraper) (beh : DynBehavior),
    DriverEvent.created ∈ (DynamicScraper.scrape st beh).2 →
    DriverEvent.quit ∈ (DynamicScraper.scrape st beh).2 := by
  intro st beh h
  unfold DynamicScraper.scrape at h ⊢
  by_cases hu : st.url.data.isEmpty
  · simp [hu] at h
  · cases beh <;> simp [hu] at h ⊢
    split <;> simp

/-- Claim C4, witness. -/
theorem C4_witness :
    DriverEvent.quit ∈ (DynamicScraper.scrape sampleDyn .unexpected).2 :=
  C4_theorem sampleDyn .unexpected (by decide)

/-- Claim C5: after navigating, the call blocks at most the configured
timeout waiting for the document body; if the body is present within the
timeout the rendered page source is stored as the data of the call (Success);
if the timeout elapses first, the `TimeoutException` is recovered and the
call stores no markup (the spec-level Failure RenderTimeout outcome: the
state is returned with its data exactly as before the call). -/
theorem C5_theorem :
    ∀ (st : DynamicScraper) (page : PageLoad),
    st.url.data.isEmpty = false →
    waitTime st.timeout page.bodyReadyAt ≤ st.timeout ∧
    (bodyReadyWithin st.timeout page.bodyReadyAt = true →
      (DynamicScraper.scrape st (.load page)).1 =
        .ok { st with dataRaw := some page.pageSource }) ∧
    (bodyReadyWithin st.timeout page.bodyReadyAt = false →
      (DynamicScraper.scrape st (.load page)).1 = .ok st) := by
  intro st page h
  refine ⟨?_, ?_, ?_⟩
  · cases hb : page.bodyReadyAt with
    | none => simp [waitTime]
    | some t => simp [waitTime]
  · intro hr
    simp [DynamicScraper.scrape, h, hr]
  · intro hr
    simp [DynamicScraper.scrape, h, hr]

/-- Claim C5, witness. -/
theorem C5_witness :
    waitTime sampleDyn.timeout (some 3) ≤ sampleDyn.timeout ∧
    (DynamicScraper.scrape sampleDyn (.load { bodyReadyAt := some 3, pageSource := "M" })).1 =
      .ok { sampleDyn with dataRaw := some "M" } :=
  ⟨(C5_theorem sampleDyn { bodyReadyAt := some 3, pageSource := "M" } rfl).1,
   (C5_theorem sampleDyn { bodyReadyAt := some 3, pageSource := "M" } rfl).2.1 (by decide)⟩

/-- Claim C6, counterexample.  The claim states that each fetch clears any
previously stored data before fetching, so the result of a call never shows a
prior call markup.  `DynamicScraper.scrape` never clears: with "A" stored by
a previous call, a call whose page never becomes ready finishes with "A"
still stored. -/
theorem C6_counterexample :
    (DynamicScraper.scrape { sampleDyn with dataRaw := some "A" }
        (.load { bodyReadyAt := none, pageSource := "B" })).1 =
      .ok { sampleDyn with dataRaw := some "A" } :=
  rfl

/-- Claim C6, amended.  `Scraper.scrape` does clear previously stored data
before fetching: its outcome is independent of whatever data was stored.
`DynamicScraper.scrape` does not clear: it writes data only on the success
path, so a call that fails to become ready returns the state unchanged, with
any previously stored markup still in place. -/
theorem C6_theorem :
    (∀ (st : Scraper) (net : NetOutcome) (d : Option String),
      Scraper.scrape { st with data := d } net = Scraper.scrape st net) ∧
    (∀ (st : DynamicScraper) (page : PageLoad),
      st.url.data.isEmpty = false →
      bodyReadyWithin st.timeout page.bodyReadyAt = false →
      (DynamicScraper.scrape st (.load page)).1 = .ok st) := by
  refine ⟨?_, ?_⟩
  · intro st net d
    obtain ⟨url, headers, timeout, retries, proxy, data, session⟩ := st
    cases session <;> cases url <;> cases d <;> cases data <;> rfl
  · intro st page h hr
    simp [DynamicScraper.scrape, h, hr]

/-- Claim C6, witness for the amended theorem. -/
theorem C6_witness :
    Scraper.scrape { sampleScraper with data := some "OLD" } .readTimeout =
      Scraper.scrape sampleScraper .readTimeout ∧
    (DynamicScraper.scrape sampleDyn (.load { bodyReadyAt := none, pageSource := "B" })).1 =
      .ok sampleDyn :=
  ⟨C6_theorem.1 sampleScraper .readTimeout (some "OLD"),
   C6_theorem.2 sampleDyn { bodyReadyAt := none, pageSource := "B" } rfl rfl⟩

/-- Claim C7, counterexample.  The claim states that constructing a
`Scraper` performs no session creation and that the session comes into
existence only when fetch is first called.  On the code, `__init__` calls
`_create_session` itself: the state produced by construction, before any
fetch, already carries the fully configured session. -/
theorem C7_counterexample :
    Scraper.init (.vStr "http://example.com") defaultTimeout defaultRetries .vNone none =
      .ok sampleScraper ∧
    sampleScraper.session = some (create_session defaultRetries none) :=
  ⟨rfl, rfl⟩

/-- Claim C7, amended.  The session is created eagerly: every successful
construction yields a state whose session is already the configured session
for the requested retries and proxy, and `scrape` never creates a session,
it only reuses the stored one (the session of the state is unchanged by every
successful scrape). -/
theorem C7_theorem :
    (∀ (url : PyValue) (t : Int) (r : Nat) (p : PyValue)
        (h : Option (List (String × String))) (st : Scraper),
      Scraper.init url t r p h = .ok st →
      st.session = some (create_session r st.proxy)) ∧
    (∀ (st : Scraper) (net : NetOutcome) (st2 : Scraper),
      Scraper.scrape st net = .ok st2 → st2.session = st.session) := by
  refine ⟨?_, ?_⟩
  · intro url t r p h st hinit
    cases hsu : setUrl url with
    | error e => simp [Scraper.init, hsu] at hinit
    | ok u =>
      cases hsp : setProxy p with
      | error e => simp [Scraper.init, hsu, hsp] at hinit
      | ok pr =>
        simp [Scraper.init, hsu, hsp] at hinit
        subst hinit
        rfl
  · intro st net st2 h
    obtain ⟨url, headers, timeout, retries, proxy, data, session⟩ := st
    cases session with
    | none => simp [Scraper.scrape] at h
    | some sess =>
      cases url with
      | none => simp [Scraper.scrape] at h
      | some u =>
        cases net <;> simp [Scraper.scrape] at h <;>
          first
          | (cases data <;> simp at h <;> subst h <;> rfl)
          | (split at h <;> cases data <;> simp at h <;> subst h <;> rfl)

/-- Claim C7, witness for the amended theorem. -/
theorem C7_witness :
    sampleScraper.session = some (create_session defaultRetries sampleScraper.proxy) ∧
    sampleScraper.session = sampleScraper.session :=
  ⟨C7_theorem.1 (.vStr "http://example.com") defaultTimeout defaultRetries .vNone none
      sampleScraper rfl,
   C7_theorem.2 sampleScraper .connectionError sampleScraper rfl⟩

/-- Claim C8: when the caller passes no header mapping, the constructed
fetcher carries exactly the default mapping holding the fixed User-Agent
string; a caller-supplied mapping is stored as given. -/
theorem C8_theorem :
    (∀ (url : PyValue) (t : Int) (r : Nat) (p : PyValue) (st : Scraper),
      Scraper.init url t r p none = .ok st →
      st.headers = [("User-Agent", defaultUserAgent)]) ∧
    (∀ (url : PyValue) (t : Int) (r : Nat) (p : PyValue)
        (hs : List (String × String)) (st : Scraper),
      Scraper.init url t r p (some hs) = .ok st → st.headers = hs) := by
  constructor
  · intro url t r p st hinit
    cases hsu : setUrl url with
    | error e => simp [Scraper.init, hsu] at hinit
    | ok u =>
      cases hsp : setProxy p with
      | error e => simp [Scraper.init, hsu, hsp] at hinit
      | ok pr =>
        simp [Scraper.init, hsu, hsp] at hinit
        subst hinit
        rfl
  · intro url t r p hs st hinit
    cases hsu : setUrl url with
    | error e => simp [Scraper.init, hsu] at hinit
    | ok u =>
      cases hsp : setProxy p with
      | error e => simp [Scraper.init, hsu, hsp] at hinit
      | ok pr =>
        simp [Scraper.init, hsu, hsp] at hinit
        subst hinit
        rfl

/-- Claim C8, witness. -/
theorem C8_witness :
    sampleScraper.headers = [("User-Agent", defaultUserAgent)] ∧
    ({ sampleScraper with headers := [("X", "y")] } : Scraper).headers = [("X", "y")] :=
  ⟨C8_theorem.1 (.vStr "http://example.com") defaultTimeout defaultRetries .vNone
      sampleScraper rfl,
   C8_theorem.2 (.vStr "http://example.com") defaultTimeout defaultRetries .vNone
      [("X", "y")] { sampleScraper with headers := [("X", "y")] } rfl⟩

/-- Claim C9: the guards at the start of `Scraper.scrape` are dead code for
every successfully constructed instance: construction always stores a session
and a url, so `scrape` never raises the guard `ValueError` for an unset
session or url; for every modelled network outcome it returns normally. -/
theorem C9_theorem :
    ∀ (url : PyValue) (t : Int) (r : Nat) (p : PyValue)
      (h : Option (List (String × String))) (st : Scraper),
    Scraper.init url t r p h = .ok st →
    st.session.isSome = true ∧ st.url.isSome = true ∧
    ∀ net : NetOutcome, (Scraper.scrape st net).isOk = true := by
  intro url t r p h st hinit
  cases hsu : setUrl url with
  | error e => simp [Scraper.init, hsu] at hinit
  | ok u =>
    cases hsp : setProxy p with
    | error e => simp [Scraper.init, hsu, hsp] at hinit
    | ok pr =>
      simp [Scraper.init, hsu, hsp] at hinit
      subst hinit
      refine ⟨rfl, rfl, ?_⟩
      intro net
      cases net <;> simp [Scraper.scrape] <;> first | (split <;> rfl) | rfl

/-- Claim C9, witness. -/
theorem C9_witness :
    sampleScraper.session.isSome = true ∧ sampleScraper.url.isSome = true ∧
    ∀ net : NetOutcome, (Scraper.scrape sampleScraper net).isOk = true :=
  C9_theorem (.vStr "http://example.com") defaultTimeout defaultRetries .vNone none
    sampleScraper rfl

/-- Claim C10: the markup accessors are total and never yield an unset value:
`cleaned_data` is the empty string when no data is stored and the prettified
markup otherwise, and the `data` getter of `DynamicScraper` is the empty
string when the underlying attribute is unset (and also when it holds the
empty, falsy, string). -/
theorem C10_theorem :
    (∀ (prettify : String → String) (st : Scraper),
      (st.data = none → Scraper.cleaned_data prettify st = "") ∧
      (∀ s, st.data = some s → Scraper.cleaned_data prettify st = prettify s)) ∧
    (∀ st : DynamicScraper, st.dataRaw = none → DynamicScraper.data st = "") ∧
    (∀ st : DynamicScraper, st.dataRaw = some "" → DynamicScraper.data st = "") := by
  refine ⟨?_, ?_, ?_⟩
  · intro prettify st
    constructor
    · intro h; simp [Scraper.cleaned_data, h]
    · intro s h; simp [Scraper.cleaned_data, h]
  · intro st h; simp [DynamicScraper.data, h]
  · intro st h; simp [DynamicScraper.data, h]

/-- Claim C10, witness. -/
theorem C10_witness :
    Scraper.cleaned_data id sampleScraper = "" ∧
    Scraper.cleaned_data id { sampleScraper with data := some "M" } = id "M" ∧
    DynamicScraper.data sampleDyn = "" ∧
    DynamicScraper.data { sampleDyn with dataRaw := some "" } = "" :=
  ⟨(C10_theorem.1 id sampleScraper).1 rfl,
   (C10_theorem.1 id { sampleScraper with data := some "M" }).2 "M" rfl,
   C10_theorem.2.1 sampleDyn rfl,
   C10_theorem.2.2 { sampleDyn with dataRaw := some "" } rfl⟩

end MyScraper
